import Mathlib

/-!
Shallow embedding of the browser-fingerprint pipeline
(`src/index.ts` of HamedStack.BrowserFingerprint) in Lean 4.

The host environment (the `navigator`, `window`, `document`, canvas, WebGL
and audio objects the providers read) is modelled as explicit record data;
each provider is translated from the source into a pure function of that
data.  JavaScript numbers are modelled as `Int`/`Nat` with explicit
`% 2^32` where the source's bitwise operators truncate; promise outcomes
(resolve / reject / never-settle) are modelled by the `JsOutcome` type.
-/

/-- Set of allowed hex digits: JS `Number.prototype.toString(16)` digits for
a nonnegative integer, lowercase, no leading zeros (and `"0"` for zero).
`Nat.toDigits 16` produces exactly these. -/
def jsNatToHex (n : Nat) : String :=
  String.mk (Nat.toDigits 16 n)

/-- JS `Number.prototype.toString(16)` on an integer value: a minus sign
followed by the hex digits of the absolute value when negative. -/
def jsToString16 (n : Int) : String :=
  if n < 0 then "-" ++ jsNatToHex n.natAbs else jsNatToHex n.toNat

/-- ECMAScript ToInt32: reduce an integer modulo 2^32 into
[-2^31, 2^31). Applied by the `<<` operator to its operands and result. -/
def toInt32 (n : Int) : Int :=
  if n % 4294967296 < 2147483648 then n % 4294967296
  else n % 4294967296 - 4294967296

/-- One iteration of the loop body of `computeHashBuffer`
(src/index.ts:49): `hash = (hash << 5) - hash + view.getUint8(i)`.
`hash << 5` is `toInt32 (32 * hash)` (ToInt32 of the operand, shift,
result truncated to int32); the following `-` and `+` are exact number
arithmetic, NOT truncated — the source has no `| 0`. -/
def jsHashStep (hash : Int) (b : Nat) : Int :=
  toInt32 (32 * hash) - hash + b

/-- Accumulator of `computeHashBuffer` after consuming the byte list
(src/index.ts:47-50): starts at 0, folds `jsHashStep` left to right. -/
def jsHashAcc (bytes : List Nat) : Int :=
  bytes.foldl jsHashStep 0

/-- Translation of `computeHashBuffer` (src/index.ts:45-52): iterate the
un-truncated accumulator over the bytes of the buffer in order, then
render it with `Number.prototype.toString(16)`. -/
def computeHashBuffer (bytes : List Nat) : String :=
  jsToString16 (jsHashAcc bytes)

/-- Modelled from the spec (section 4.2 wording, for comparison with the
source): one update of a 32-bit signed accumulator with wraparound,
`acc = (acc << 5) - acc + b` reduced mod 2^32 and interpreted as signed,
i.e. `toInt32 (31 * acc + b)`. -/
def specHashStep (acc : Int) (b : Nat) : Int :=
  toInt32 (31 * acc + b)

/-- Modelled from the spec: the wrapped signed 32-bit accumulator after
consuming the byte list. -/
def specHashAcc (bytes : List Nat) : Int :=
  bytes.foldl specHashStep 0

/-- Modelled from the spec: the buffer hash as section 4.2 describes it —
the hexadecimal rendering of the wrapped signed 32-bit accumulator. -/
def specHashBuffer (bytes : List Nat) : String :=
  jsToString16 (specHashAcc bytes)

/-! SHA-256 (FIPS 180-4), the algorithm named by the source's call
`crypto.subtle.digest('SHA-256', utf8)` (src/index.ts:56).  The Web
Crypto host primitive is specified to be exactly this standard
function, so it is embedded here directly. -/

/-- Word arithmetic: addition modulo 2^32. -/
def add32 (a b : Nat) : Nat := (a + b) % 4294967296

/-- Right rotation of a 32-bit word by `n` places. -/
def rotr32 (n x : Nat) : Nat :=
  ((x >>> n) ||| (x <<< (32 - n))) % 4294967296

/-- SHA-256 choice function Ch(x,y,z). -/
def shaCh (x y z : Nat) : Nat := (x &&& y) ^^^ ((x ^^^ 4294967295) &&& z)

/-- SHA-256 majority function Maj(x,y,z). -/
def shaMaj (x y z : Nat) : Nat := (x &&& y) ^^^ (x &&& z) ^^^ (y &&& z)

/-- SHA-256 big sigma 0. -/
def bsig0 (x : Nat) : Nat := rotr32 2 x ^^^ rotr32 13 x ^^^ rotr32 22 x

/-- SHA-256 big sigma 1. -/
def bsig1 (x : Nat) : Nat := rotr32 6 x ^^^ rotr32 11 x ^^^ rotr32 25 x

/-- SHA-256 small sigma 0. -/
def ssig0 (x : Nat) : Nat := rotr32 7 x ^^^ rotr32 18 x ^^^ (x >>> 3)

/-- SHA-256 small sigma 1. -/
def ssig1 (x : Nat) : Nat := rotr32 17 x ^^^ rotr32 19 x ^^^ (x >>> 10)

/-- SHA-256 round constants K[0..63] (FIPS 180-4, in decimal). -/
def sha256K : List Nat :=
  [1116352408, 1899447441, 3049323471, 3921009573,
   961987163, 1508970993, 2453635748, 2870763221,
   3624381080, 310598401, 607225278, 1426881987,
   1925078388, 2162078206, 2614888103, 3248222580,
   3835390401, 4022224774, 264347078, 604807628,
   770255983, 1249150122, 1555081692, 1996064986,
   2554220882, 2821834349, 2952996808, 3210313671,
   3336571891, 3584528711, 113926993, 338241895,
   666307205, 773529912, 1294757372, 1396182291,
   1695183700, 1986661051, 2177026350, 2456956037,
   2730485921, 2820302411, 3259730800, 3345764771,
   3516065817, 3600352804, 4094571909, 275423344,
   430227734, 506948616, 659060556, 883997877,
   958139571, 1322822218, 1537002063, 1747873779,
   1955562222, 2024104815, 2227730452, 2361852424,
   2428436474, 2756734187, 3204031479, 3329325298]

/-- Working state of the SHA-256 compression function. -/
structure ShaState where
  a : Nat
  b : Nat
  c : Nat
  d : Nat
  e : Nat
  f : Nat
  g : Nat
  hh : Nat
deriving DecidableEq

/-- Initial SHA-256 hash value H(0) (FIPS 180-4, in decimal). -/
def sha256Init : ShaState :=
  ⟨1779033703, 3144134277, 1013904242, 2773480762,
   1359893119, 2600822924, 528734635, 1541459225⟩

/-- One SHA-256 compression round, consuming a pair (K[t], W[t]). -/
def shaRound (s : ShaState) (kw : Nat × Nat) : ShaState :=
  let t1 := add32 (add32 (add32 s.hh (bsig1 s.e)) (add32 (shaCh s.e s.f s.g) kw.1)) kw.2
  let t2 := add32 (bsig0 s.a) (shaMaj s.a s.b s.c)
  ⟨add32 t1 t2, s.a, s.b, s.c, add32 s.d t1, s.e, s.f, s.g⟩

/-- Group a byte list into big-endian 32-bit words, four bytes per word. -/
def bytesToWords : List Nat → List Nat
  | b0 :: b1 :: b2 :: b3 :: rest =>
      (b0 * 16777216 + b1 * 65536 + b2 * 256 + b3) :: bytesToWords rest
  | _ => []

/-- Append one word to the message schedule from the last 16 entries. -/
def scheduleStep (w : List Nat) : List Nat :=
  let n := w.length
  w ++ [add32 (add32 (ssig1 (w.getD (n - 2) 0)) (w.getD (n - 7) 0))
              (add32 (ssig0 (w.getD (n - 15) 0)) (w.getD (n - 16) 0))]

/-- Extend the 16-word schedule by `k` further words. -/
def schedule : Nat → List Nat → List Nat
  | 0, w => w
  | k + 1, w => schedule k (scheduleStep w)

/-- Process one 64-byte block: run the 64 compression rounds on its
extended schedule, then add the result into the chaining value mod 2^32. -/
def sha256Block (s : ShaState) (block : List Nat) : ShaState :=
  let w := schedule 48 (bytesToWords block)
  let r := (sha256K.zip w).foldl shaRound s
  ⟨add32 s.a r.a, add32 s.b r.b, add32 s.c r.c, add32 s.d r.d,
   add32 s.e r.e, add32 s.f r.f, add32 s.g r.g, add32 s.hh r.hh⟩

/-- Big-endian 8-byte rendering of a length (in bits) for the padding. -/
def be8 (n : Nat) : List Nat :=
  [(n >>> 56) % 256, (n >>> 48) % 256, (n >>> 40) % 256, (n >>> 32) % 256,
   (n >>> 24) % 256, (n >>> 16) % 256, (n >>> 8) % 256, n % 256]

/-- SHA-256 padding: append 0x80, zeros to 56 mod 64, then the bit length. -/
def sha256Pad (msg : List Nat) : List Nat :=
  msg ++ 128 :: List.replicate ((64 - ((msg.length + 9) % 64)) % 64) 0
      ++ be8 (msg.length * 8)

/-- Split a list into 64-byte chunks (fuelled structural recursion; the
fuel is the list length, ample since every chunk consumes 64 bytes). -/
def chunks64 : Nat → List Nat → List (List Nat)
  | _, [] => []
  | 0, _ => []
  | fuel + 1, bs => bs.take 64 :: chunks64 fuel (bs.drop 64)

/-- Big-endian bytes of one 32-bit word. -/
def wordBytes (w : Nat) : List Nat :=
  [(w >>> 24) % 256, (w >>> 16) % 256, (w >>> 8) % 256, w % 256]

/-- Final chaining value after processing all blocks of the padded message. -/
def sha256Final (msg : List Nat) : ShaState :=
  (chunks64 (sha256Pad msg).length (sha256Pad msg)).foldl sha256Block sha256Init

/-- Big-endian byte rendering of the eight words of a hash state. -/
def digestBytes (s : ShaState) : List Nat :=
  wordBytes s.a ++ wordBytes s.b ++ wordBytes s.c ++ wordBytes s.d ++
  wordBytes s.e ++ wordBytes s.f ++ wordBytes s.g ++ wordBytes s.hh

/-- SHA-256 digest of a byte list, as a list of 32 bytes. -/
def sha256Bytes (msg : List Nat) : List Nat :=
  digestBytes (sha256Final msg)

/-- UTF-8 encoding of one Unicode code point, as bytes. -/
def utf8EncodeChar (c : Nat) : List Nat :=
  if c < 128 then [c]
  else if c < 2048 then [192 ||| (c >>> 6), 128 ||| (c &&& 63)]
  else if c < 65536 then
    [224 ||| (c >>> 12), 128 ||| ((c >>> 6) &&& 63), 128 ||| (c &&& 63)]
  else
    [240 ||| (c >>> 18), 128 ||| ((c >>> 12) &&& 63),
     128 ||| ((c >>> 6) &&& 63), 128 ||| (c &&& 63)]

/-- UTF-8 encoding of a string: what `new TextEncoder().encode(input)`
produces (src/index.ts:55). -/
def utf8Encode (s : String) : List Nat :=
  (s.data.map (fun c => utf8EncodeChar c.toNat)).flatten

/-- JS `String.prototype.padStart(2, '0')`: left-pad with zeros to length 2. -/
def padStart2 (s : String) : String :=
  String.mk (List.replicate (2 - s.length) '0') ++ s

/-- Hex rendering of one digest byte as the source does it
(src/index.ts:59): `byte.toString(16).padStart(2, '0')`. -/
def byteToHex2 (b : Nat) : String :=
  padStart2 (jsNatToHex b)

/-- JS `Array.prototype.join('')`: concatenation in order. -/
def joinAll : List String → String
  | [] => ""
  | s :: rest => s ++ joinAll rest

/-- Translation of `computeSHA256` (src/index.ts:54-62): UTF-8 encode the
input, digest it with SHA-256, and render each digest byte as two
lowercase hex characters, concatenated. -/
def computeSHA256 (input : String) : String :=
  joinAll ((sha256Bytes (utf8Encode input)).map byteToHex2)

set_option maxRecDepth 100000

/-! Host environment model and the signal providers. -/

/-- JS truthiness fallback `x || d` where `x` is a nullable string:
`null`/`undefined` and the empty string are falsy and select `d`. -/
def jsOrString (x : Option String) (d : String) : String :=
  match x with
  | none => d
  | some s => if s = "" then d else s

/-- Host `navigator` attributes read by the synchronous providers.
`doNotTrack` is `none` when the host exposes no preference (`null`);
`hardwareConcurrency` is `none` when the attribute is `undefined`. -/
structure Navigator where
  userAgent : String
  language : String
  platformStr : String
  doNotTrack : Option String
  hardwareConcurrency : Option Nat
  cookieEnabled : Bool
  plugins : List String
  maxTouchPoints : Nat

/-- Translation of `getUserAgent` (src/index.ts:1-3). -/
def getUserAgent (nav : Navigator) : String := nav.userAgent

/-- Translation of `getScreenResolution` (src/index.ts:5-7): the template
literal renders the two screen integers in decimal around an `x`. -/
def getScreenResolution (width height : Nat) : String :=
  toString width ++ "x" ++ toString height

/-- Translation of `getTimeZone` (src/index.ts:9-11): the resolved
time-zone name of the host. -/
def getTimeZone (tz : String) : String := tz

/-- Translation of `getLanguage` (src/index.ts:13-15). -/
def getLanguage (nav : Navigator) : String := nav.language

/-- Translation of `getPlatform` (src/index.ts:17-19). -/
def getPlatform (nav : Navigator) : String := nav.platformStr

/-- Translation of `getDoNotTrackStatus` (src/index.ts:21-23):
`navigator.doNotTrack || 'N/A'`. -/
def getDoNotTrackStatus (nav : Navigator) : String :=
  jsOrString nav.doNotTrack "N/A"

/-- Translation of `getHardwareConcurrencyStatus` (src/index.ts:25-27):
`navigator.hardwareConcurrency.toString() || 'N/A'`.  When the attribute
is `undefined`, the `.toString()` call throws a TypeError; otherwise the
decimal string is returned, falling back to `"N/A"` only when that string
is empty (which a decimal rendering never is). -/
def getHardwareConcurrencyStatus (hc : Option Nat) : Except String String :=
  match hc with
  | none => Except.error "TypeError"
  | some n => Except.ok (if toString n = "" then "N/A" else toString n)

/-- Translation of `getCookiesStatus` (src/index.ts:29-31). -/
def getCookiesStatus (cookieEnabled : Bool) : String :=
  if cookieEnabled then "Cookies Enabled" else "Cookies Disabled"

/-- JS `new Set(array)` iteration order: first occurrences, in order. -/
def jsSetDedup (seen : List String) : List String → List String
  | [] => []
  | x :: xs =>
      if x ∈ seen then jsSetDedup seen xs else x :: jsSetDedup (x :: seen) xs

/-- JS `Array.prototype.join(sep)`: elements concatenated with `sep`
between consecutive elements, empty string for an empty array. -/
def jsJoin (sep : String) (l : List String) : String :=
  String.intercalate sep l

/-- Translation of `getPlugins` (src/index.ts:33-37): deduplicate the
plugin names with a Set and join them with semicolons; an empty plugin
list yields the empty string (no sentinel). -/
def getPlugins (plugins : List String) : String :=
  jsJoin ";" (jsSetDedup [] plugins)

/-- Translation of `getTouchSupport` (src/index.ts:39-43). -/
def getTouchSupport (ontouchstartInWindow : Bool) (maxTouchPoints : Nat) : String :=
  if ontouchstartInWindow ∨ 0 < maxTouchPoints
  then "Touch Supported" else "Touch Not Supported"

/-- Host font-enumeration subsystem state: whether `document.fonts`
exists, whether awaiting `document.fonts.ready` (and reading the values)
succeeds, and the enumerated font family names. -/
structure FontsEnv where
  fontsInDocument : Bool
  fontsReadyOk : Bool
  fontFamilies : List String

/-- Translation of `getFonts` (src/index.ts:64-80): when `document.fonts`
exists and enumeration succeeds, the deduplicated family names joined
with semicolons, with `|| 'N/A'` turning an empty join into the sentinel;
`"N/A"` when the subsystem is missing or enumeration throws. -/
def getFonts (env : FontsEnv) : String :=
  if env.fontsInDocument then
    if env.fontsReadyOk then
      let fontListString := jsJoin ";" (jsSetDedup [] env.fontFamilies)
      if fontListString = "" then "N/A" else fontListString
    else "N/A"
  else "N/A"

/-- Host WebGL state: whether `getContext('webgl')` yields a context,
whether the `WEBGL_debug_renderer_info` extension is available, and the
two unmasked identifier strings (nullable). -/
structure WebGLEnv where
  glContext : Bool
  debugInfo : Bool
  unmaskedRenderer : Option String
  unmaskedVendor : Option String

/-- Translation of `getWebGLFingerprint` (src/index.ts:82-93): `"N/A"`
without a context or extension; otherwise renderer and vendor strings
(each individually defaulted to `"N/A"` when falsy) concatenated with no
delimiter. -/
def getWebGLFingerprint (env : WebGLEnv) : String :=
  if env.glContext then
    if env.debugInfo then
      jsOrString env.unmaskedRenderer "N/A" ++ jsOrString env.unmaskedVendor "N/A"
    else "N/A"
  else "N/A"

/-- Host audio subsystem state: whether building and running the offline
audio graph succeeds, and the frequency-domain byte samples captured by
`getByteFrequencyData`. -/
structure AudioEnv where
  audioOk : Bool
  frequencyData : List Nat

/-- Translation of `getAudioFingerprint` (src/index.ts:95-116): the
captured byte samples joined with commas in decimal; the surrounding
try/catch resolves to `"N/A"` when any audio step throws. -/
def getAudioFingerprint (env : AudioEnv) : String :=
  if env.audioOk then jsJoin "," (env.frequencyData.map toString) else "N/A"

/-- Outcome of a JS promise: settles with a value, settles rejected with
an error, or never settles. -/
inductive JsOutcome (α : Type) where
  | ok : α → JsOutcome α
  | err : String → JsOutcome α
  | hang : JsOutcome α
deriving DecidableEq

/-- Host canvas state: whether `getContext('2d')` yields a context, and
the PNG bytes `toBlob` delivers (`none` models a `null` blob). -/
structure CanvasEnv where
  context2d : Bool
  blob : Option (List Nat)

/-- Translation of `getCanvasFingerprint` (src/index.ts:118-140).  The
non-null assertion `getContext('2d')!` is erased at runtime: when the 2-D
context is unavailable, `ctx.textBaseline = 'top'` throws a TypeError
inside the promise executor and the promise rejects.  When `toBlob`
passes a `null` blob, `blob!.arrayBuffer()` throws inside the callback,
`resolve` is never called, and the promise never settles.  Otherwise the
blob bytes are reduced with `computeHashBuffer`. -/
def getCanvasFingerprint (env : CanvasEnv) : JsOutcome String :=
  if env.context2d then
    match env.blob with
    | some bytes => JsOutcome.ok (computeHashBuffer bytes)
    | none => JsOutcome.hang
  else JsOutcome.err "TypeError"

/-- The whole host environment read by one fingerprint computation. -/
structure Env where
  nav : Navigator
  screenWidth : Nat
  screenHeight : Nat
  timeZone : String
  ontouchstartInWindow : Bool
  fontsEnv : FontsEnv
  canvasEnv : CanvasEnv
  webglEnv : WebGLEnv
  audioEnv : AudioEnv

/-- JS string coercion of a pending promise object, as produced by a
template literal: `String(promise)` is `"[object Promise]"`. -/
def promiseToString : String := "[object Promise]"

/-- Translation of the template literal at src/index.ts:157 that builds
the canonical string: the fourteen signal values in declared order, with
a single `-` between consecutive values. -/
def buildRaw (userAgent screenResolution timeZone language platformV track
    hardwareConcurrency cookies touch plugins fonts canvas webgl audio :
    String) : String :=
  userAgent ++ "-" ++ screenResolution ++ "-" ++ timeZone ++ "-" ++
  language ++ "-" ++ platformV ++ "-" ++ track ++ "-" ++
  hardwareConcurrency ++ "-" ++ cookies ++ "-" ++ touch ++ "-" ++
  plugins ++ "-" ++ fonts ++ "-" ++ canvas ++ "-" ++ webgl ++ "-" ++ audio

/-- Translation of `getBrowserFingerprint` (src/index.ts:142-160) up to
the canonical string `raw`.  The synchronous providers run first
(`getHardwareConcurrencyStatus` can throw, rejecting the async function's
promise); `getFonts` is awaited and always resolves;
`getCanvasFingerprint` is awaited and its rejection or stall propagates;
`getWebGLFingerprint` is awaited and always resolves;
`getAudioFingerprint()` at line 156 is NOT awaited, so the template
literal stringifies the pending promise as `"[object Promise]"`. -/
def getBrowserFingerprintRaw (env : Env) : JsOutcome String :=
  match getHardwareConcurrencyStatus env.nav.hardwareConcurrency with
  | Except.error msg => JsOutcome.err msg
  | Except.ok hardwareConcurrency =>
    let userAgent := getUserAgent env.nav
    let screenResolution := getScreenResolution env.screenWidth env.screenHeight
    let timeZone := getTimeZone env.timeZone
    let language := getLanguage env.nav
    let platformV := getPlatform env.nav
    let track := getDoNotTrackStatus env.nav
    let cookies := getCookiesStatus env.nav.cookieEnabled
    let touch := getTouchSupport env.ontouchstartInWindow env.nav.maxTouchPoints
    let plugins := getPlugins env.nav.plugins
    let fonts := getFonts env.fontsEnv
    match getCanvasFingerprint env.canvasEnv with
    | JsOutcome.err msg => JsOutcome.err msg
    | JsOutcome.hang => JsOutcome.hang
    | JsOutcome.ok canvas =>
      let webgl := getWebGLFingerprint env.webglEnv
      let audio := promiseToString
      JsOutcome.ok (buildRaw userAgent screenResolution timeZone language
        platformV track hardwareConcurrency cookies touch plugins fonts
        canvas webgl audio)

/-- Translation of `getBrowserFingerprint` (src/index.ts:142-160): the
SHA-256 hex digest of the canonical string, when the pipeline reaches it. -/
def getBrowserFingerprint (env : Env) : JsOutcome String :=
  match getBrowserFingerprintRaw env with
  | JsOutcome.ok raw => JsOutcome.ok (computeSHA256 raw)
  | JsOutcome.err msg => JsOutcome.err msg
  | JsOutcome.hang => JsOutcome.hang

/-- Concrete healthy environment: every provider succeeds. -/
def envOk : Env :=
  { nav :=
      { userAgent := "UA"
        language := "en-US"
        platformStr := "Linux"
        doNotTrack := none
        hardwareConcurrency := some 8
        cookieEnabled := true
        plugins := ["p1"]
        maxTouchPoints := 0 }
    screenWidth := 1024
    screenHeight := 768
    timeZone := "UTC"
    ontouchstartInWindow := false
    fontsEnv := { fontsInDocument := true, fontsReadyOk := true,
                  fontFamilies := ["Arial"] }
    canvasEnv := { context2d := true, blob := some [65, 66, 67] }
    webglEnv := { glContext := true, debugInfo := true,
                  unmaskedRenderer := some "R", unmaskedVendor := some "V" }
    audioEnv := { audioOk := false, frequencyData := [] } }

/-- Concrete degraded environment: every asynchronous provider fails
internally (no font subsystem, no 2-D context, no WebGL context, audio
construction throws); the synchronous attributes are all present. -/
def envAllAsyncFail : Env :=
  { nav :=
      { userAgent := "UA"
        language := "en-US"
        platformStr := "Linux"
        doNotTrack := none
        hardwareConcurrency := some 8
        cookieEnabled := true
        plugins := []
        maxTouchPoints := 0 }
    screenWidth := 1024
    screenHeight := 768
    timeZone := "UTC"
    ontouchstartInWindow := false
    fontsEnv := { fontsInDocument := false, fontsReadyOk := false,
                  fontFamilies := [] }
    canvasEnv := { context2d := false, blob := none }
    webglEnv := { glContext := false, debugInfo := false,
                  unmaskedRenderer := none, unmaskedVendor := none }
    audioEnv := { audioOk := false, frequencyData := [] } }

/-- Concrete canvas environment with no 2-D context. -/
def canvasNoCtx : CanvasEnv := { context2d := false, blob := none }

/-- Concrete font environment: subsystem present, enumeration succeeds,
no font families enumerated. -/
def fontsEmptyEnv : FontsEnv :=
  { fontsInDocument := true, fontsReadyOk := true, fontFamilies := [] }

/-! Helper lemmas. -/

lemma toInt32_emod (n : Int) : toInt32 n % 4294967296 = n % 4294967296 := by
  unfold toInt32
  split <;> omega

lemma toInt32_congr {a b : Int} (hab : a % 4294967296 = b % 4294967296) :
    toInt32 a = toInt32 b := by
  unfold toInt32
  rw [hab]

lemma toInt32_jsHashStep (acc : Int) (b : Nat) :
    toInt32 (jsHashStep acc b) = specHashStep (toInt32 acc) b := by
  unfold jsHashStep specHashStep
  apply toInt32_congr
  have h1 := toInt32_emod (32 * acc)
  have h2 := toInt32_emod acc
  omega

lemma toInt32_foldl (bytes : List Nat) :
    ∀ acc : Int,
      toInt32 (bytes.foldl jsHashStep acc) =
        bytes.foldl specHashStep (toInt32 acc) := by
  induction bytes with
  | nil => intro acc; rfl
  | cons b bs ih =>
      intro acc
      simp only [List.foldl_cons]
      rw [ih, toInt32_jsHashStep]

lemma byteToHex2_length : ∀ b : Nat, b < 256 → (byteToHex2 b).length = 2 := by
  decide

lemma joinAll_length (l : List Nat) (hl : ∀ b ∈ l, b < 256) :
    (joinAll (l.map byteToHex2)).length = 2 * l.length := by
  induction l with
  | nil => rfl
  | cons x xs ih =>
      simp only [List.map_cons, joinAll, String.length_append, List.length_cons]
      rw [byteToHex2_length x (hl x (List.mem_cons_self x xs)),
          ih (fun b hb => hl b (List.mem_cons_of_mem x hb))]
      ring

lemma wordBytes_lt (w : Nat) : ∀ b ∈ wordBytes w, b < 256 := by
  intro b hb
  simp only [wordBytes, List.mem_cons, List.not_mem_nil, or_false] at hb
  rcases hb with h | h | h | h <;> subst h <;> exact Nat.mod_lt _ (by norm_num)

lemma digestBytes_lt (s : ShaState) : ∀ b ∈ digestBytes s, b < 256 := by
  intro b hb
  simp only [digestBytes, List.mem_append] at hb
  rcases hb with ((((((h | h) | h) | h) | h) | h) | h) | h <;>
    exact wordBytes_lt _ b h

lemma digestBytes_length (s : ShaState) : (digestBytes s).length = 32 := rfl

lemma sha256Bytes_length (msg : List Nat) : (sha256Bytes msg).length = 32 :=
  digestBytes_length _

lemma sha256Bytes_lt (msg : List Nat) : ∀ b ∈ sha256Bytes msg, b < 256 :=
  digestBytes_lt _

/-! Claim theorems. -/

/-- C1: the orchestrator does NOT wait for the audio provider: the call at
src/index.ts:156 is missing `await`, so the audio position of the
canonical string holds the string coercion of a pending promise,
`"[object Promise]"`, while the audio provider itself resolves to `"N/A"`
in this environment.  Evaluation of the pipeline at a concrete healthy
environment exhibiting the divergence. -/
theorem C1_audio_slot_unresolved :
    getBrowserFingerprintRaw envOk =
      JsOutcome.ok
        ("UA-1024x768-UTC-en-US-Linux-N/A-8-Cookies Enabled-" ++
         "Touch Not Supported-p1-Arial-fc42-RV-[object Promise]") ∧
    getAudioFingerprint envOk.audioEnv = "N/A" ∧
    getAudioFingerprint envOk.audioEnv ≠ promiseToString := by
  decide

/-- C2: when every asynchronous provider fails internally, the pipeline
does NOT complete with a hex string: the missing 2-D context makes the
canvas promise executor throw, the rejection propagates through the
`await` at src/index.ts:154, and `getBrowserFingerprint` rejects. -/
theorem C2_all_async_fail_rejects :
    getBrowserFingerprint envAllAsyncFail = JsOutcome.err "TypeError" ∧
    ∀ hex : String, getBrowserFingerprint envAllAsyncFail ≠ JsOutcome.ok hex := by
  have h : getBrowserFingerprint envAllAsyncFail = JsOutcome.err "TypeError" := by
    decide
  refine ⟨h, fun hex hcontra => ?_⟩
  rw [h] at hcontra
  exact JsOutcome.noConfusion hcontra

/-- C3: when the 2-D context is unavailable, `getCanvasFingerprint` does
not resolve to `"N/A"`: the write to `ctx.textBaseline` on the `null`
context throws inside the promise executor and the promise rejects with a
TypeError. -/
theorem C3_canvas_no_context_rejects :
    getCanvasFingerprint canvasNoCtx = JsOutcome.err "TypeError" ∧
    getCanvasFingerprint canvasNoCtx ≠ JsOutcome.ok "N/A" := by
  decide

/-- C4 counterexample: for the bytes [71, 67, 78, 66, 72, 66] the
un-truncated accumulator of the source ends at -2198032246, outside the
signed 32-bit range, and the rendered token "-83034f76" differs from
"7cfcb08a", the rendering of the wrapped signed 32-bit accumulator the
claim describes. -/
theorem C4_counterexample :
    computeHashBuffer [71, 67, 78, 66, 72, 66] = "-83034f76" ∧
    specHashBuffer [71, 67, 78, 66, 72, 66] = "7cfcb08a" ∧
    jsHashAcc [71, 67, 78, 66, 72, 66] = -2198032246 ∧
    computeHashBuffer [71, 67, 78, 66, 72, 66] ≠
      specHashBuffer [71, 67, 78, 66, 72, 66] := by
  decide

/-- C4 (amended): the source never truncates the accumulator itself —
each step computes `toInt32 (hash << 5) - hash + b` exactly.  The
accumulator stays congruent mod 2^32 to the spec's wrapped signed 32-bit
accumulator (truncating it recovers the spec's value), and the returned
token is the `toString(16)` rendering of the un-truncated accumulator,
which can differ from the rendering of the wrapped value. -/
theorem C4_hash_amended (bytes : List Nat) :
    toInt32 (jsHashAcc bytes) = specHashAcc bytes ∧
    computeHashBuffer bytes = jsToString16 (jsHashAcc bytes) := by
  constructor
  · unfold jsHashAcc specHashAcc
    rw [toInt32_foldl]
    rfl
  · rfl

/-- C5: `getHardwareConcurrencyStatus` does not map a zero count to
`"N/A"`: `(0).toString()` is `"0"`, a truthy string, so the `|| 'N/A'`
fallback is dead; and when the attribute is absent the `.toString()` call
throws a TypeError instead of returning at all. -/
theorem C5_hardware_concurrency_divergence :
    getHardwareConcurrencyStatus (some 0) = Except.ok "0" ∧
    getHardwareConcurrencyStatus (some 0) ≠ Except.ok "N/A" ∧
    getHardwareConcurrencyStatus none = Except.error "TypeError" := by
  refine ⟨rfl, fun hcontra => ?_, rfl⟩
  have : "0" = "N/A" := Except.ok.inj hcontra
  simp at this

/-- C6: `computeSHA256` renders the SHA-256 digest of the UTF-8 encoding
of its input as a lowercase hexadecimal string of exactly 64 characters,
and on "abc" it produces the published test vector. -/
theorem C6_computeSHA256_correct :
    (∀ input : String, (computeSHA256 input).length = 64) ∧
    computeSHA256 "abc" =
      "ba7816bf8f01cfea414140de5dae2223b00361a396177a9cb410ff61f20015ad" := by
  constructor
  · intro input
    unfold computeSHA256
    rw [joinAll_length _ (sha256Bytes_lt _), sha256Bytes_length]
  · decide

/-- C7: the canonical string built by the template literal at
src/index.ts:157 is exactly the fourteen signal values joined with a
single `-` in declared order (no leading or trailing delimiter, values
inserted verbatim with no escaping), and joining ["A","B","N/A"] with `-`
yields "A-B-N/A". -/
theorem C7_canonical_join :
    (∀ ua sr tz lang pf tr hc ck tc pl fo cv wg au : String,
      buildRaw ua sr tz lang pf tr hc ck tc pl fo cv wg au =
        String.intercalate "-"
          [ua, sr, tz, lang, pf, tr, hc, ck, tc, pl, fo, cv, wg, au]) ∧
    String.intercalate "-" ["A", "B", "N/A"] = "A-B-N/A" :=
  ⟨fun _ _ _ _ _ _ _ _ _ _ _ _ _ _ => rfl, rfl⟩

/-- C8: the buffer hash matches the spec's test vectors: on [65, 66, 67]
the accumulator evolves 0, 65, 2081, 64578 and the output is "fc42"; on
the empty byte sequence the output is "0". -/
theorem C8_hash_test_vectors :
    jsHashAcc [] = 0 ∧
    jsHashAcc [65] = 65 ∧
    jsHashAcc [65, 66] = 2081 ∧
    jsHashAcc [65, 66, 67] = 64578 ∧
    computeHashBuffer [65, 66, 67] = "fc42" ∧
    computeHashBuffer [] = "0" := by
  decide

/-- C9: the pipeline is deterministic in the host environment's state:
two invocations of `getBrowserFingerprint` on the same unchanged
environment yield identical outcomes. -/
theorem C9_deterministic (env1 env2 : Env) (henv : env1 = env2) :
    getBrowserFingerprint env1 = getBrowserFingerprint env2 := by
  rw [henv]

/-- C9 witness: the determinism theorem applied at a concrete
environment. -/
theorem C9_deterministic_witness :
    getBrowserFingerprint envOk = getBrowserFingerprint envOk :=
  C9_deterministic envOk envOk rfl

/-- C10: with the font subsystem present and enumeration succeeding on an
empty family set, `getFonts` resolves to the sentinel `"N/A"` (via the
`|| 'N/A'` on the empty join), while `getPlugins` renders an empty plugin
list as the empty string. -/
theorem C10_empty_fonts_vs_plugins :
    (∀ fe : FontsEnv, fe.fontsInDocument = true → fe.fontsReadyOk = true →
      fe.fontFamilies = [] → getFonts fe = "N/A") ∧
    getPlugins [] = "" := by
  constructor
  · intro fe h1 h2 h3
    simp [getFonts, h1, h2, h3, jsSetDedup, jsJoin, String.intercalate]
  · rfl

/-- C10 witness: the font-sentinel theorem applied to a concrete
environment with an empty enumerated family set. -/
theorem C10_empty_fonts_vs_plugins_witness :
    getFonts fontsEmptyEnv = "N/A" :=
  C10_empty_fonts_vs_plugins.1 fontsEmptyEnv rfl rfl rfl
